import Mathlib

/-!
Verification of the Addok OpenTelemetry monitoring layer
(`addok/monitoring/falcon_middleware.py`, `addok/monitoring/metrics_endpoint.py`,
`addok/monitoring/telemetry.py`, `addok/wsgi_otel.py`).

The Python code is shallowly embedded: each middleware hook and metric-recording
function becomes a pure Lean function that returns the list of observable
telemetry events it emits.  Python exceptions are modelled with `Except`:
a function whose Python body can raise is `Except`-typed, `try`/`except`
blocks become `Except.tryCatch`, and the external fallible primitives
(prometheus label registration, psutil calls, the exposition renderer) are
modelled with explicit boolean failure switches so that every `except`
handler of the source has a reachable semantics.
-/

namespace AddokMonitoring

/-- JSON values, as produced by Python's `json.loads`.  `num` collapses the
numeric types; nothing in the middleware distinguishes them. -/
inductive Json where
  | null
  | bool (b : Bool)
  | num (n : Int)
  | str (s : String)
  | arr (elems : List Json)
  | obj (entries : List (String × Json))

/-- The observable pieces of a Falcon request used by the middleware.
`limitParam` models `req.get_param_as_int('limit')`: `none` = parameter
absent (Falcon returns `None`), `some none` = present but unparsable (Falcon
raises `HTTPInvalidParam`), `some (some n)` = parses to `n`.
`autocompleteParam` models `req.get_param_as_bool('autocomplete')` the same
way.  `extractedCtx` is the (abstract) trace context that
`propagate.extract(req.headers)` yields for this request. -/
structure Req where
  method : String
  path : String
  url : String
  scheme : String
  userAgent : Option String
  xForwardedFor : Option String
  xRealIp : Option String
  remoteAddr : Option String
  qParam : Option String
  limitParam : Option (Option Int)
  autocompleteParam : Option (Option Bool)
  extractedCtx : Nat

/-- The observable pieces of a Falcon response read by the middleware:
`resp.status` is the raw Falcon status *string* (`none` models `None`;
handlers may assign any string, e.g. `falcon.HTTP_200 = "200 OK"` — or the
malformed `"HTTP_200"` that wsgi_otel.py line 100 produces) and `resp.text`
the body (`none` models a missing/`None` body). -/
structure Resp where
  status : Option String
  text : Option String

/-- Scalar span-attribute values. -/
inductive AttrVal where
  | s (v : String)
  | i (v : Int)
  | b (v : Bool)
deriving DecidableEq

/-- Observable telemetry effects of the monitoring subsystem.  Each
constructor corresponds to one call into the OpenTelemetry / prometheus
client visible in the source. -/
inductive Event where
  | incActive (delta : Int)
  | ctxAttach (ctx : Nat)
  | ctxDetach (token : Nat)
  | spanStart (name : String)
  | spanSetAttr (key : String) (val : AttrVal)
  | spanSetStatusOk
  | spanSetStatusError
  | spanEnd
  | httpCounterInc (method endpoint : String) (code : Int)
  | httpDurationObserve (method endpoint : String) (duration : Nat)
  | geoCounterInc (operationType resultStatus : String)
  | geoDurationObserve (operationType : String) (duration : Nat)
  | telGeoRecord (endpoint status : String) (queryLength resultsCount : Nat)
  | telErrorRecord (errorType endpoint : String)
  | errorCounterInc (errorType severity : String)
  | flush
deriving DecidableEq

/-- Per-worker telemetry environment, fixed for the duration of one request:
`tracerAvailable` is the truthiness of `self.tracer` after the refresh at the
top of `process_request`; `tracerProviderAvailable` that of
`telemetry.tracer_provider` (the source sets the provider before the tracer,
so an available tracer implies an available provider, but we keep the flags
independent); `metricsAvailable` that of the `telemetry.metrics` dict
(guarding every `AddokTelemetry.record_*`); `labelsFail` makes the
prometheus `labels(...)` calls raise, modelling a malformed label set.
`tracerId`/`workerPid` model `id(self.tracer)` and `os.getpid()`. -/
structure MwConfig where
  tracerAvailable : Bool
  tracerProviderAvailable : Bool
  metricsAvailable : Bool
  labelsFail : Bool
  tracerId : Int
  workerPid : Int

/-- Request-scoped state stored on `req` by `process_request`
(`req.start_time`, `req.context.otel_span`, `req.context.otel_token`).
The span is identified by its name; the token by the attached context. -/
structure ReqCtx where
  startTime : Nat
  otelSpan : Option String
  otelToken : Option Nat

/-! ### String primitives (Python semantics) -/

/-- `listStartsWith l p` : does `l` start with `p`?  (Python `str.startswith`
on the underlying character lists.) -/
def listStartsWith : List Char → List Char → Bool
  | _, [] => true
  | [], _ :: _ => false
  | a :: as, b :: bs => a == b && listStartsWith as bs

/-- Python `s.startswith(p)`. -/
def pyStartsWith (s p : String) : Bool :=
  listStartsWith s.toList p.toList

/-- Does `l` contain `sub` as a contiguous run?  (Python `sub in s`.) -/
def listContainsSub : List Char → List Char → Bool
  | [], sub => listStartsWith [] sub
  | a :: t, sub => listStartsWith (a :: t) sub || listContainsSub t sub

/-- Python `sub in s` on strings. -/
def pyContains (s sub : String) : Bool :=
  listContainsSub s.toList sub.toList

/-- Python `s.split(c)[0]`: the characters before the first occurrence of
`c` (the whole string when `c` does not occur). -/
def beforeChar (s : String) (c : Char) : String :=
  (s.toList.takeWhile (fun ch => ch ≠ c)).asString

/-- Python truthiness of an optional string (`None` and `""` are falsy). -/
def pyTruthy : Option String → Bool
  | some s => !s.isEmpty
  | none => false

/-- Python `s.strip()`: drop leading and trailing whitespace. -/
def pyStrip (s : String) : String :=
  ((s.toList.dropWhile Char.isWhitespace).reverse.dropWhile Char.isWhitespace).reverse.asString

/-- The value of a non-empty all-digit character run; `none` otherwise. -/
def digitsVal (l : List Char) : Option Nat :=
  if l.isEmpty then none
  else if l.all Char.isDigit then
    some (l.foldl (fun acc c => acc * 10 + (c.toNat - '0'.toNat)) 0)
  else none

/-- Python `int(s)` on the short slices that occur here: an optional sign
followed by decimal digits parses; anything else (such as `"HTT"`) raises
`ValueError`, modelled as `none`.  (Python's exotic extras — surrounding
whitespace, underscores between digits — do not occur in 3-character status
slices and are not modelled.) -/
def pyInt (s : String) : Option Int :=
  match s.toList with
  | '-' :: rest => (digitsVal rest).map (fun n => -(n : Int))
  | '+' :: rest => (digitsVal rest).map (fun n => (n : Int))
  | l => (digitsVal l).map (fun n => (n : Int))

/-! ### `OpenTelemetryMiddleware` helpers (falcon_middleware.py) -/

/-- `OpenTelemetryMiddleware._get_operation_name` (lines 132-145): fixed
prefix-match table over `req.path`, falling back to `"<METHOD> <path>"`. -/
def get_operation_name (req : Req) : String :=
  if pyStartsWith req.path "/search" then "geocode_search"
  else if pyStartsWith req.path "/reverse" then "geocode_reverse"
  else if pyStartsWith req.path "/health" then "health_check"
  else if pyStartsWith req.path "/metrics" then "metrics"
  else req.method ++ " " ++ req.path

/-- `OpenTelemetryMiddleware._get_client_ip` (lines 147-158).  Note the
Python truthiness tests: an empty header value is skipped exactly like an
absent one, and an empty/absent `remote_addr` yields `"unknown"`. -/
def get_client_ip (req : Req) : String :=
  if pyTruthy req.xForwardedFor then
    pyStrip (beforeChar (req.xForwardedFor.getD "") ',')
  else if pyTruthy req.xRealIp then
    req.xRealIp.getD ""
  else
    match req.remoteAddr with
    | some a => if a.isEmpty then "unknown" else a
    | none => "unknown"

/-- Lines 61-64: `try: limit = req.get_param_as_int('limit') or 5` with a
bare `except` defaulting to 5.  A parsed `0` is falsy, so `0 or 5` is 5;
absence (`None or 5`) and the `HTTPInvalidParam` raise also give 5. -/
def limitAttr : Option (Option Int) → Int
  | some (some n) => if n = 0 then 5 else n
  | some none => 5
  | none => 5

/-- Lines 66-71: `autocomplete = req.get_param_as_bool('autocomplete')`,
`None` replaced by `True`, bare `except` defaulting to `True`. -/
def autocompleteAttr : Option (Option Bool) → Bool
  | some (some b) => b
  | some none => true
  | none => true

/-- Line 79: `req.get_param('q', '')[:100] if req.get_param('q') else ""`. -/
def queryAttr : Option String → String
  | some s => if s.isEmpty then "" else s.take 100
  | none => ""

/-- `int(resp.status[:3]) if resp.status else 500` (lines 163-169/245/297):
a falsy (`None` or empty) status yields 500; a truthy status is sliced to
its first three characters and passed to `int`, which raises `ValueError`
on a non-numeric prefix such as `"HTT"` — the error path the surrounding
`try` blocks of the source then swallow. -/
def statusCodeE (resp : Resp) : Except String Int :=
  match resp.status with
  | some st =>
    if st.isEmpty then Except.ok 500
    else
      match pyInt (st.toList.take 3).asString with
      | some n => Except.ok n
      | none => Except.error "ValueError: invalid literal for int with base 10"
  | none => Except.ok 500

/-- Does `int(resp.status[:3]) if resp.status else 500` evaluate without
raising?  True for every well-formed `falcon.HTTP_*` status line. -/
def statusParses (resp : Resp) : Bool :=
  match statusCodeE resp with
  | .ok _ => true
  | .error _ => false

/-! ### Result-count estimation (`_estimate_results_count`, lines 217-232) -/

/-- Python `dict` lookup on the entry list of a parsed JSON object. -/
def jsonLookup : List (String × Json) → String → Option Json
  | [], _ => none
  | (k, v) :: rest, key => if k = key then some v else jsonLookup rest key

/-- Python `len` on a JSON value: defined for strings, arrays and objects,
raises `TypeError` (here: `none`) otherwise. -/
def pyLen : Json → Option Nat
  | .arr l => some l.length
  | .obj l => some l.length
  | .str s => some s.length
  | _ => none

/-- `OpenTelemetryMiddleware._estimate_results_count`.  `parse` models
`json.loads` (an external library call; a `none` result is the `except`-ed
parse failure).  The body is inspected only when it is truthy and contains
the literal text `'features'`; a successful dict parse with a `features` key
yields `len(data['features'])` (a `TypeError` from `len` falls through to
the fallback); every other path falls back to
`1 if resp.status and resp.status.startswith('200') else 0`. -/
def estimate_results_count (parse : String → Option Json) (resp : Resp) : Nat :=
  let fallback : Nat :=
    match resp.status with
    | some st => if !st.isEmpty && pyStartsWith st "200" then 1 else 0
    | none => 0
  match resp.text with
  | none => fallback
  | some t =>
    if !t.isEmpty && pyContains t "features" then
      match parse t with
      | some (Json.obj entries) =>
        match jsonLookup entries "features" with
        | some v => (pyLen v).getD fallback
        | none => fallback
      | _ => fallback
    else fallback

/-! ### Metric recording (telemetry.py / metrics_endpoint.py) -/

/-- `AddokTelemetry.increment_active_requests` (telemetry.py lines 449-457):
no-op when the metrics dict is empty, otherwise an up-down-counter `add`
(whose own failure is caught internally). -/
def increment_active_requests (metricsAvailable : Bool) (delta : Int) : List Event :=
  if metricsAvailable then [Event.incActive delta] else []

/-- `AddokTelemetry.record_geocoding_request` (telemetry.py lines 380-397):
guarded by the metrics dict; records a counter and a histogram point with
endpoint/status attributes (the query-length and results ranges are derived
from the raw values carried here). -/
def telemetry_record_geocoding_request (metricsAvailable : Bool) (endpoint status : String)
    (queryLength resultsCount : Nat) : List Event :=
  if metricsAvailable then [Event.telGeoRecord endpoint status queryLength resultsCount] else []

/-- `AddokTelemetry.record_error` (telemetry.py lines 438-447): guarded by
the metrics dict; adds to the `errors_total` counter with
`(error_type, endpoint)` attributes. -/
def telemetry_record_error (metricsAvailable : Bool) (errorType endpoint : String) : List Event :=
  if metricsAvailable then [Event.telErrorRecord errorType endpoint] else []

/-- A prometheus `metric.labels(...)` call: raises `ValueError` when the
label set is malformed (`labelsFail`), otherwise yields the recording. -/
def prometheus_labels (labelsFail : Bool) (evs : List Event) : Except String (List Event) :=
  if labelsFail then Except.error "ValueError: incorrect label names" else Except.ok evs

/-- `record_http_request` (metrics_endpoint.py lines 189-204): under a
`try`, increments `addok_http_requests_total` and observes
`addok_http_request_duration_seconds`; any failure is caught, logged at
debug level and swallowed (returning no recording). -/
def record_http_request (labelsFail : Bool) (method endpoint : String) (code : Int)
    (duration : Nat) : Except String (List Event) :=
  Except.tryCatch
    (do
      let counterEvs ← prometheus_labels labelsFail [Event.httpCounterInc method endpoint code]
      let histEvs ← prometheus_labels labelsFail [Event.httpDurationObserve method endpoint duration]
      pure (counterEvs ++ histEvs))
    (fun _ => Except.ok [])

/-- `record_geocoding_operation` (metrics_endpoint.py lines 206-217): under
a `try`, increments `addok_geocoding_operations_total` and observes
`addok_response_time_seconds`; failures are caught and swallowed. -/
def record_geocoding_operation (labelsFail : Bool) (operationType resultStatus : String)
    (duration : Nat) : Except String (List Event) :=
  Except.tryCatch
    (do
      let counterEvs ← prometheus_labels labelsFail [Event.geoCounterInc operationType resultStatus]
      let histEvs ← prometheus_labels labelsFail [Event.geoDurationObserve operationType duration]
      pure (counterEvs ++ histEvs))
    (fun _ => Except.ok [])

/-- `record_error` (metrics_endpoint.py lines 240-245): under a `try`,
increments `addok_errors_total` with `(error_type, severity)` labels;
failures are caught and swallowed. -/
def record_error (labelsFail : Bool) (errorType severity : String) :
    Except String (List Event) :=
  Except.tryCatch
    (do
      let evs ← prometheus_labels labelsFail [Event.errorCounterInc errorType severity]
      pure evs)
    (fun _ => Except.ok [])

/-! ### `OpenTelemetryMiddleware` (falcon_middleware.py lines 24-277) -/

namespace OpenTelemetryMiddleware

/-- The `span.set_attributes({...})` dict of `process_request` lines 73-85,
in source order. -/
def span_attr_events (cfg : MwConfig) (req : Req) : List Event :=
  [Event.spanSetAttr "http.method" (AttrVal.s req.method),
   Event.spanSetAttr "http.url" (AttrVal.s req.url),
   Event.spanSetAttr "http.scheme" (AttrVal.s req.scheme),
   Event.spanSetAttr "http.user_agent" (AttrVal.s (req.userAgent.getD "")),
   Event.spanSetAttr "http.client_ip" (AttrVal.s (get_client_ip req)),
   Event.spanSetAttr "addok.query" (AttrVal.s (queryAttr req.qParam)),
   Event.spanSetAttr "addok.limit" (AttrVal.i (limitAttr req.limitParam)),
   Event.spanSetAttr "addok.autocomplete" (AttrVal.b (autocompleteAttr req.autocompleteParam)),
   Event.spanSetAttr "debug.span_created" (AttrVal.b true),
   Event.spanSetAttr "debug.tracer_id" (AttrVal.i cfg.tracerId),
   Event.spanSetAttr "debug.worker_pid" (AttrVal.i cfg.workerPid)]

/-- `OpenTelemetryMiddleware.process_request` (lines 31-100).  Returns the
request-scoped state together with the emitted events.  With a tracer the
hook extracts and attaches the inbound context, starts a server span named
by `get_operation_name` and populates its attributes; otherwise the span and
token slots are `None`.  The `except` handler (lines 96-100) is kept but is
unreachable here: the only fallible primitives in the body — the two
parameter parses — are already guarded by the inner bare `except`s embedded
in `limitAttr`/`autocompleteAttr`. -/
def process_request (cfg : MwConfig) (req : Req) (now : Nat) :
    Except String (ReqCtx × List Event) :=
  Except.tryCatch
    (pure
      (if cfg.tracerAvailable then
        ({ startTime := now, otelSpan := some (get_operation_name req),
           otelToken := some req.extractedCtx },
         increment_active_requests cfg.metricsAvailable 1 ++
           [Event.ctxAttach req.extractedCtx, Event.spanStart (get_operation_name req)] ++
           span_attr_events cfg req)
      else
        ({ startTime := now, otelSpan := none, otelToken := none },
         increment_active_requests cfg.metricsAvailable 1)))
    (fun _ => pure ({ startTime := now, otelSpan := none, otelToken := none }, []))

/-- `OpenTelemetryMiddleware.process_resource` (lines 123-130): annotates
the span, when present, with the handler class name; wrapped in `try`. -/
def process_resource (ctx : ReqCtx) (resourceName : String) : Except String (List Event) :=
  Except.tryCatch
    (pure
      (match ctx.otelSpan with
       | some _ => [Event.spanSetAttr "addok.resource" (AttrVal.s resourceName)]
       | none => []))
    (fun _ => pure [])

/-- `OpenTelemetryMiddleware._record_http_metrics` (lines 160-174): derives
the endpoint label via `_get_operation_name` and calls
`record_http_request`; its own `try` swallows anything that escapes — in
particular the `ValueError` from `int(status_code)` (evaluated at line 169
while building the call's arguments) on a non-numeric status, in which case
no HTTP metric is recorded at all. -/
def record_http_metrics (cfg : MwConfig) (req : Req) (resp : Resp) (duration : Nat) :
    List Event :=
  match statusCodeE resp with
  | .error _ => []
  | .ok code =>
    match record_http_request cfg.labelsFail req.method (get_operation_name req)
        code duration with
    | .ok evs => evs
    | .error _ => []

/-- The status classification of lines 187/202:
`'success' if req_succeeded and results_count > 0 else 'no_results' if
req_succeeded else 'error'`. -/
def geoStatus (succ : Bool) (resultsCount : Nat) : String :=
  if succ && decide (0 < resultsCount) then "success"
  else if succ then "no_results"
  else "error"

/-- `OpenTelemetryMiddleware._record_geocoding_metrics` (lines 176-215):
dispatches on the handler class name; for `Search` and `Reverse` it
estimates the result count, classifies the outcome and records both the
prometheus operation metrics and the telemetry geocoding request (the
`Search` branch additionally passes the query length). -/
def record_geocoding_metrics (cfg : MwConfig) (parse : String → Option Json) (req : Req)
    (resp : Resp) (resource : Option String) (succ : Bool) (duration : Nat) : List Event :=
  match resource with
  | none => []
  | some resourceName =>
    if resourceName = "Search" then
      let q := req.qParam.getD ""
      let rc := estimate_results_count parse resp
      let st := geoStatus succ rc
      (match record_geocoding_operation cfg.labelsFail "search" st duration with
       | .ok evs => evs
       | .error _ => []) ++
        telemetry_record_geocoding_request cfg.metricsAvailable "search" st q.length rc
    else if resourceName = "Reverse" then
      let rc := estimate_results_count parse resp
      let st := geoStatus succ rc
      (match record_geocoding_operation cfg.labelsFail "reverse" st duration with
       | .ok evs => evs
       | .error _ => []) ++
        telemetry_record_geocoding_request cfg.metricsAvailable "reverse" st 0 rc
    else []

/-- `OpenTelemetryMiddleware._complete_span` (lines 234-277): no-op without
a span.  The status parse `int(resp.status[:3])` at line 245 precedes every
effect of the body; when it raises (non-numeric status such as
`"HTTP_200"`) the function-wide `except` at line 276 swallows the error and
*nothing* happens — no status attribute, no `span.end()`, no
`detach(token)`, no flush: the span and the attached context leak.  When it
parses, the hook sets the numeric status attribute, classifies the span
status (`OK` iff `req_succeeded and 200 <= status_code < 400`, recording
the `HTTP_<code>` error metrics otherwise), ends the span, detaches the
context token when present, and force-flushes when the tracer provider
exists. -/
def complete_span (cfg : MwConfig) (req : Req) (resp : Resp) (ctx : ReqCtx) (succ : Bool) :
    List Event :=
  match ctx.otelSpan with
  | none => []
  | some _ =>
    match statusCodeE resp with
    | .error _ => []
    | .ok code =>
      let statusEvs : List Event :=
        if succ ∧ 200 ≤ code ∧ code < 400 then [Event.spanSetStatusOk]
        else
          Event.spanSetStatusError ::
            ((match record_error cfg.labelsFail ("HTTP_" ++ toString code) "error" with
              | .ok evs => evs
              | .error _ => []) ++
              telemetry_record_error cfg.metricsAvailable ("HTTP_" ++ toString code)
                (get_operation_name req))
      [Event.spanSetAttr "http.status_code" (AttrVal.i code)] ++ statusEvs ++ [Event.spanEnd] ++
        (match ctx.otelToken with
         | some t => [Event.ctxDetach t]
         | none => []) ++
        (if cfg.tracerProviderAvailable then [Event.flush] else [])

/-- `OpenTelemetryMiddleware.process_response` (lines 102-121): decrements
the active-request gauge, records HTTP and geocoding metrics and completes
the span, all under a `try`; the response object is returned untouched (the
source never writes any `resp` field). -/
def process_response (cfg : MwConfig) (parse : String → Option Json) (req : Req) (ctx : ReqCtx)
    (resp : Resp) (resource : Option String) (succ : Bool) (now : Nat) :
    Except String (Resp × List Event) :=
  Except.tryCatch
    (pure (resp,
      increment_active_requests cfg.metricsAvailable (-1) ++
        record_http_metrics cfg req resp (now - ctx.startTime) ++
        record_geocoding_metrics cfg parse req resp resource succ (now - ctx.startTime) ++
        complete_span cfg req resp ctx succ))
    (fun _ => pure (resp, []))

end OpenTelemetryMiddleware

/-! ### `MetricsMiddleware` (falcon_middleware.py lines 279-303) -/

namespace MetricsMiddleware

/-- `MetricsMiddleware.process_request` (lines 285-288): stores the start
time and increments the gauge.  The source has no `try` here; none of the
operations in the body can raise. -/
def process_request (metricsAvailable : Bool) (now : Nat) :
    Except String (Nat × List Event) :=
  pure (now, increment_active_requests metricsAvailable 1)

/-- Line 298: `req.path.split('?')[0] if req.path else 'unknown'`. -/
def pathEndpoint (path : String) : String :=
  if path.isEmpty then "unknown" else beforeChar path '?'

/-- `MetricsMiddleware.process_response` (lines 290-303): decrements the
gauge (line 294) and then records basic HTTP metrics with the raw path as
endpoint label, under a `try`; the response is returned untouched.  The
status parse at line 297 comes *after* the decrement, so when it raises the
`except` at line 302 swallows the error and the hook returns with the
decrement done but no HTTP metric recorded — which is why the decrement and
the parse-guarded recording are sequenced explicitly here. -/
def process_response (metricsAvailable labelsFail : Bool) (req : Req) (resp : Resp)
    (startTime now : Nat) : Except String (Resp × List Event) :=
  Except.ok (resp,
    increment_active_requests metricsAvailable (-1) ++
      (match statusCodeE resp with
       | .error _ => []
       | .ok code =>
         match record_http_request labelsFail req.method (pathEndpoint req.path)
             code (now - startTime) with
         | .ok evs => evs
         | .error _ => []))

end MetricsMiddleware

/-! ### Request traces: the framework contract

Falcon guarantees that for every request `process_request` is followed by
(at most one `process_resource` and) exactly one `process_response`, with
`req_succeeded = False` when the handler raises (spec section 6).
`runRequest` encodes one such lifecycle; `processTrace` a sequence of
requests handled sequentially by one worker. -/

/-- Everything that can vary between two requests handled by one worker:
the telemetry environment, the request/response pair, the selected resource
class name (`none` when routing rejected the request early), the handler
outcome flag, the two clock readings, and the external JSON parser. -/
structure RequestInstance where
  cfg : MwConfig
  req : Req
  resp : Resp
  resource : Option String
  succeeded : Bool
  t0 : Nat
  t1 : Nat
  parse : String → Option Json

/-- One full request lifecycle through `OpenTelemetryMiddleware`:
`process_request`, then `process_resource` when a resource was matched,
then `process_response` — always, per the framework contract. -/
def runRequest (ri : RequestInstance) : List Event :=
  match OpenTelemetryMiddleware.process_request ri.cfg ri.req ri.t0 with
  | .error _ => []
  | .ok (ctx, evs1) =>
    let evs2 :=
      match ri.resource with
      | some rn =>
        match OpenTelemetryMiddleware.process_resource ctx rn with
        | .ok evs => evs
        | .error _ => []
      | none => []
    match OpenTelemetryMiddleware.process_response ri.cfg ri.parse ri.req ctx ri.resp
        ri.resource ri.succeeded ri.t1 with
    | .ok (_, evs3) => evs1 ++ evs2 ++ evs3
    | .error _ => evs1 ++ evs2

/-- The event stream of a whole sequence of sequential requests. -/
def processTrace (ris : List RequestInstance) : List Event :=
  (ris.map runRequest).flatten

/-! ### Observers over event streams -/

/-- Span creations. -/
def isSpanStartEv : Event → Bool
  | .spanStart _ => true
  | _ => false

/-- Span completions. -/
def isSpanEndEv : Event → Bool
  | .spanEnd => true
  | _ => false

/-- Positive active-request gauge updates. -/
def isGaugeIncEv : Event → Bool
  | .incActive d => decide (0 < d)
  | _ => false

/-- Negative active-request gauge updates. -/
def isGaugeDecEv : Event → Bool
  | .incActive d => decide (d < 0)
  | _ => false

/-- Ambient-context operations. -/
def isCtxEv : Event → Bool
  | .ctxAttach _ => true
  | .ctxDetach _ => true
  | _ => false

/-- The ambient trace-context state of one worker thread, as a stack whose
head is the current context.  `attach` pushes the extracted context;
`detach token` restores the context saved in the token — for the LIFO
attach/detach discipline of the middleware this is exactly a pop. -/
def applyCtxEvent (st : List Nat) : Event → List Nat
  | .ctxAttach c => c :: st
  | .ctxDetach _ => st.tail
  | _ => st

/-- Run an event stream over the ambient-context state. -/
def applyCtxEvents (st : List Nat) (evs : List Event) : List Nat :=
  evs.foldl applyCtxEvent st

/-! ### Metrics / health endpoints (metrics_endpoint.py, wsgi_otel.py) -/

/-- A Flask `Response` as produced by `prometheus_metrics` (Flask defaults
the status code to 200, which both return sites rely on). -/
structure FlaskResponse where
  body : String
  mimetype : String
  statusCode : Nat

/-- `prometheus_client.CONTENT_TYPE_LATEST`. -/
def CONTENT_TYPE_LATEST : String := "text/plain; version=0.0.4; charset=utf-8"

/-- `_update_system_metrics` (metrics_endpoint.py lines 148-167): psutil
reads and gauge updates under a `try` that logs and swallows any failure
(`psutilFail`). -/
def update_system_metrics (psutilFail : Bool) : Except String Unit :=
  Except.tryCatch
    (if psutilFail then Except.error "psutil failure" else pure ())
    (fun _ => pure ())

/-- `_update_application_metrics` (lines 169-185): health-state update under
a `try` that swallows any failure (`appFail`). -/
def update_application_metrics (appFail : Bool) : Except String Unit :=
  Except.tryCatch
    (if appFail then Except.error "application state failure" else pure ())
    (fun _ => pure ())

/-- `prometheus_client.generate_latest(registry)`: renders the registry to
`rendered` (an external call; `renderFail` models it raising). -/
def generate_latest (renderFail : Bool) (rendered : String) : Except String String :=
  if renderFail then Except.error "render failure" else pure rendered

/-- `prometheus_metrics` (metrics_endpoint.py lines 100-116): refresh the
system and application gauges, render the registry, and answer 200; on any
failure answer the `"# Error generating metrics\n"` comment — still with
Flask's default status 200, deliberately avoiding scrape failures. -/
def prometheus_metrics (sysFail appFail renderFail : Bool) (rendered : String) :
    Except String FlaskResponse :=
  Except.tryCatch
    (do
      let _ ← update_system_metrics sysFail
      let _ ← update_application_metrics appFail
      let payload ← generate_latest renderFail rendered
      pure { body := payload, mimetype := CONTENT_TYPE_LATEST, statusCode := 200 })
    (fun _ =>
      pure { body := "# Error generating metrics\n", mimetype := CONTENT_TYPE_LATEST,
             statusCode := 200 })

/-- The process vitals read from psutil by `health_metrics`. -/
structure ProcessVitals where
  uptimeSeconds : Nat
  memoryUsageMb : Nat
  cpuPercent : Nat
  openFiles : Nat

/-- `health_metrics` (metrics_endpoint.py lines 118-146): on success a
`(payload, 200)` pair whose payload carries the status, timestamp, vitals
and the metrics-endpoint pointer; when the psutil reads raise, the `except`
returns `({status: "unhealthy", timestamp, error}, 500)`.  `ts`/`errTs` are
the `datetime.now().isoformat()` readings of the two branches. -/
def health_metrics (psutilFail : Bool) (vit : ProcessVitals) (ts errTs : String) :
    Except String (Json × Nat) :=
  Except.tryCatch
    (do
      let _ ← update_system_metrics psutilFail
      if psutilFail then Except.error "psutil.Process failure"
      else
        pure (Json.obj
          [("status", Json.str "healthy"),
           ("timestamp", Json.str ts),
           ("uptime_seconds", Json.num vit.uptimeSeconds),
           ("memory_usage_mb", Json.num vit.memoryUsageMb),
           ("cpu_percent", Json.num vit.cpuPercent),
           ("open_files", Json.num vit.openFiles),
           ("metrics_endpoint", Json.str "/metrics")], 200))
    (fun e =>
      pure (Json.obj
        [("status", Json.str "unhealthy"),
         ("timestamp", Json.str errTs),
         ("error", Json.str e)], 500))

/-- A Falcon response as assembled by the `on_get` handlers of
wsgi_otel.py. -/
structure FalconResp where
  status : String
  contentType : Option String
  text : Option String
  media : Option Json

/-- `falcon.HTTP_200`. -/
def HTTP_200 : String := "200 OK"

/-- `falcon.HTTP_500`. -/
def HTTP_500 : String := "500 Internal Server Error"

/-- `MetricsResource.on_get` (wsgi_otel.py lines 80-92): serve the rendered
exposition with `falcon.HTTP_200`; the `except` branch (`falcon.HTTP_500`
with the error comment) fires only if `prometheus_metrics` itself raises. -/
def metrics_on_get (sysFail appFail renderFail : Bool) (rendered : String) : FalconResp :=
  match prometheus_metrics sysFail appFail renderFail rendered with
  | .ok r =>
    { status := HTTP_200, contentType := some r.mimetype, text := some r.body, media := none }
  | .error _ =>
    { status := HTTP_500, contentType := some "text/plain",
      text := some "# Error generating metrics\n", media := none }

/-- `HealthMetricsResource.on_get` (wsgi_otel.py lines 94-104): sets
`resp.media` to the payload and — verbatim from the source — sets
`resp.status = f"HTTP_{health_response[1]}"`, i.e. the literal string
`"HTTP_200"`/`"HTTP_500"`, not the `falcon.HTTP_xxx` status line; the
`except` branch fires only if `health_metrics` itself raises. -/
def health_on_get (psutilFail : Bool) (vit : ProcessVitals) (ts errTs : String) : FalconResp :=
  match health_metrics psutilFail vit ts errTs with
  | .ok (payload, code) =>
    { status := "HTTP_" ++ toString code, contentType := none, text := none,
      media := some payload }
  | .error _ =>
    { status := HTTP_500, contentType := none, text := none,
      media := some (Json.obj [("error", Json.str "Health check failed")]) }

/-! ### Concrete inputs used by counterexamples and witnesses -/

/-- A benign telemetry environment: tracer, provider and metrics available,
labels well-formed. -/
def defaultCfg : MwConfig :=
  { tracerAvailable := true, tracerProviderAvailable := true, metricsAvailable := true,
    labelsFail := false, tracerId := 1, workerPid := 42 }

/-- A plain search request. -/
def searchReq : Req :=
  { method := "GET", path := "/search", url := "http://addok/search?q=paris", scheme := "http",
    userAgent := some "curl", xForwardedFor := none, xRealIp := none,
    remoteAddr := some "10.0.0.1", qParam := some "paris", limitParam := none,
    autocompleteParam := none, extractedCtx := 7 }

/-- A `200 OK` response whose body spells the `features` key with a JSON
`\u0066` escape: `json.loads` still yields `{'features': []}`, but the
literal text `'features'` does not occur in the body. -/
def escapedFeaturesBody : String := "\x7b\"\\u0066eatures\": []\x7d"

/-- The behaviour of `json.loads` on `escapedFeaturesBody` (JSON unescapes
`\u0066` to `f`). -/
def escapedFeaturesParse : String → Option Json := fun s =>
  if s = escapedFeaturesBody then some (Json.obj [("features", Json.arr [])]) else none

/-- The response carrying `escapedFeaturesBody`. -/
def escapedFeaturesResp : Resp :=
  { status := some "200 OK", text := some escapedFeaturesBody }

/-- A request presenting an *empty* `X-Forwarded-For` header value next to a
populated `X-Real-IP`. -/
def emptyXffReq : Req :=
  { method := "GET", path := "/search", url := "http://addok/search", scheme := "http",
    userAgent := none, xForwardedFor := some "", xRealIp := some "9.9.9.9",
    remoteAddr := some "10.0.0.1", qParam := none, limitParam := none,
    autocompleteParam := none, extractedCtx := 0 }

/-- A search response with three features, serialized the standard way. -/
def threeFeaturesBody : String :=
  "\x7b\"type\": \"FeatureCollection\", \"features\": [1, 2, 3]\x7d"

/-- `json.loads` on `threeFeaturesBody`. -/
def threeFeaturesParse : String → Option Json := fun s =>
  if s = threeFeaturesBody then
    some (Json.obj
      [("type", Json.str "FeatureCollection"),
       ("features", Json.arr [Json.num 1, Json.num 2, Json.num 3])])
  else none

/-- The response carrying `threeFeaturesBody`. -/
def threeFeaturesResp : Resp :=
  { status := some "200 OK", text := some threeFeaturesBody }

/-- A complete benign request lifecycle: the search request served by the
`Search` resource with three results. -/
def searchInstance : RequestInstance :=
  { cfg := defaultCfg, req := searchReq, resp := threeFeaturesResp,
    resource := some "Search", succeeded := true, t0 := 100, t1 := 103,
    parse := threeFeaturesParse }

/-- Nominal process vitals for the health endpoint. -/
def sampleVitals : ProcessVitals :=
  { uptimeSeconds := 3600, memoryUsageMb := 256, cpuPercent := 3, openFiles := 12 }

/-- A search request whose `limit` parameter parses to `0`. -/
def limitZeroReq : Req :=
  { searchReq with limitParam := some (some 0), autocompleteParam := some none }

/-- A request with a two-entry `X-Forwarded-For` header. -/
def xffReq : Req :=
  { searchReq with xForwardedFor := some "1.2.3.4, 5.6.7.8" }

/-- A reverse-geocoding request. -/
def reverseReq : Req :=
  { searchReq with path := "/reverse", url := "http://addok/reverse?lat=1&lon=2", qParam := none }

/-- A health-check request. -/
def healthReq : Req :=
  { searchReq with path := "/health", url := "http://addok/health", qParam := none }

/-- A metrics-scrape request. -/
def metricsReq : Req :=
  { searchReq with path := "/metrics", url := "http://addok/metrics", qParam := none }

/-- A request for a path outside the prefix table. -/
def unknownReq : Req :=
  { searchReq with path := "/unknown", url := "http://addok/unknown", qParam := none }

/-- A populated request-scoped state, as left by `process_request` for
`searchReq` under `defaultCfg`. -/
def searchCtx : ReqCtx :=
  { startTime := 100, otelSpan := some "geocode_search", otelToken := some 7 }

/-- A sample exposition-format rendering of the registry (the real
`generate_latest` output always carries at least the HELP/TYPE lines of the
metrics registered at import time, hence is never empty). -/
def sampleExposition : String :=
  "# HELP addok_http_requests_total Total HTTP requests\n"

/-- A request to the health-metrics endpoint. -/
def healthMetricsReq : Req :=
  { searchReq with path := "/health/metrics", url := "http://addok/hm", qParam := none }

/-- The response of a successful traced `GET /health/metrics`: by the C8
slip at wsgi_otel.py line 100, its status is the literal string
`"HTTP_200"`, whose 3-character slice `"HTT"` makes `int` raise. -/
def malformedStatusResp : Resp :=
  { status := some "HTTP_200", text := none }

/-- The complete lifecycle of such a traced `GET /health/metrics`: tracer
available, handler succeeded, status string malformed. -/
def malformedStatusInstance : RequestInstance :=
  { cfg := defaultCfg, req := healthMetricsReq, resp := malformedStatusResp,
    resource := some "HealthMetricsResource", succeeded := true, t0 := 10, t1 := 12,
    parse := fun _ => none }

/-! ## Reduction lemmas -/

theorem process_request_eq (cfg : MwConfig) (req : Req) (now : Nat) :
    OpenTelemetryMiddleware.process_request cfg req now =
      Except.ok
        (if cfg.tracerAvailable then
          ({ startTime := now, otelSpan := some (get_operation_name req),
             otelToken := some req.extractedCtx },
           increment_active_requests cfg.metricsAvailable 1 ++
             [Event.ctxAttach req.extractedCtx, Event.spanStart (get_operation_name req)] ++
             OpenTelemetryMiddleware.span_attr_events cfg req)
        else
          ({ startTime := now, otelSpan := none, otelToken := none },
           increment_active_requests cfg.metricsAvailable 1)) := rfl

theorem process_resource_eq (ctx : ReqCtx) (rn : String) :
    OpenTelemetryMiddleware.process_resource ctx rn =
      Except.ok
        (match ctx.otelSpan with
         | some _ => [Event.spanSetAttr "addok.resource" (AttrVal.s rn)]
         | none => []) := rfl

theorem process_response_eq (cfg : MwConfig) (parse : String → Option Json) (req : Req)
    (ctx : ReqCtx) (resp : Resp) (resource : Option String) (succ : Bool) (now : Nat) :
    OpenTelemetryMiddleware.process_response cfg parse req ctx resp resource succ now =
      Except.ok (resp,
        increment_active_requests cfg.metricsAvailable (-1) ++
          OpenTelemetryMiddleware.record_http_metrics cfg req resp (now - ctx.startTime) ++
          OpenTelemetryMiddleware.record_geocoding_metrics cfg parse req resp resource succ
            (now - ctx.startTime) ++
          OpenTelemetryMiddleware.complete_span cfg req resp ctx succ) := rfl

theorem record_http_request_eq (lf : Bool) (m e : String) (c : Int) (d : Nat) :
    record_http_request lf m e c d =
      Except.ok
        (if lf then []
         else [Event.httpCounterInc m e c, Event.httpDurationObserve m e d]) := by
  cases lf <;> rfl

theorem record_geocoding_operation_eq (lf : Bool) (o s : String) (d : Nat) :
    record_geocoding_operation lf o s d =
      Except.ok
        (if lf then []
         else [Event.geoCounterInc o s, Event.geoDurationObserve o d]) := by
  cases lf <;> rfl

theorem record_error_eq (lf : Bool) (et sev : String) :
    record_error lf et sev =
      Except.ok (if lf then [] else [Event.errorCounterInc et sev]) := by
  cases lf <;> rfl

theorem record_http_metrics_eq (cfg : MwConfig) (req : Req) (resp : Resp) (d : Nat) :
    OpenTelemetryMiddleware.record_http_metrics cfg req resp d =
      (match statusCodeE resp with
       | .error _ => []
       | .ok code =>
         if cfg.labelsFail then []
         else [Event.httpCounterInc req.method (get_operation_name req) code,
               Event.httpDurationObserve req.method (get_operation_name req) d]) := by
  unfold OpenTelemetryMiddleware.record_http_metrics
  rcases statusCodeE resp with e | code <;> simp [record_http_request_eq]

theorem prometheus_metrics_eq (sysFail appFail renderFail : Bool) (rendered : String) :
    prometheus_metrics sysFail appFail renderFail rendered =
      Except.ok
        (if renderFail then
          { body := "# Error generating metrics\n", mimetype := CONTENT_TYPE_LATEST,
            statusCode := 200 }
        else
          { body := rendered, mimetype := CONTENT_TYPE_LATEST, statusCode := 200 }) := by
  cases sysFail <;> cases appFail <;> cases renderFail <;> rfl

theorem health_metrics_eq (psutilFail : Bool) (vit : ProcessVitals) (ts errTs : String) :
    health_metrics psutilFail vit ts errTs =
      Except.ok
        (if psutilFail then
          (Json.obj
            [("status", Json.str "unhealthy"),
             ("timestamp", Json.str errTs),
             ("error", Json.str "psutil.Process failure")], 500)
        else
          (Json.obj
            [("status", Json.str "healthy"),
             ("timestamp", Json.str ts),
             ("uptime_seconds", Json.num vit.uptimeSeconds),
             ("memory_usage_mb", Json.num vit.memoryUsageMb),
             ("cpu_percent", Json.num vit.cpuPercent),
             ("open_files", Json.num vit.openFiles),
             ("metrics_endpoint", Json.str "/metrics")], 200)) := by
  cases psutilFail <;> rfl

/-! ## Per-request lifecycle lemmas (shared by C1 and C2) -/

theorem applyCtxEvents_append (st : List Nat) (l₁ l₂ : List Event) :
    applyCtxEvents st (l₁ ++ l₂) = applyCtxEvents (applyCtxEvents st l₁) l₂ :=
  List.foldl_append _ _ _ _

theorem runRequest_span_balance (ri : RequestInstance)
    (h : statusParses ri.resp = true) :
    List.countP isSpanStartEv (runRequest ri) = List.countP isSpanEndEv (runRequest ri) := by
  obtain ⟨⟨tr, tp, ma, lf, tid, wpid⟩, req, resp, resource, succ, t0, t1, parse⟩ := ri
  obtain ⟨code, hsc⟩ : ∃ c, statusCodeE resp = Except.ok c := by
    unfold statusParses at h
    rcases hq : statusCodeE resp with e | c
    · rw [hq] at h
      simp at h
    · exact ⟨c, rfl⟩
  cases tr <;> cases ma <;> cases lf <;> cases tp <;>
    rcases resource with _ | rn <;>
      simp [runRequest, process_request_eq, process_resource_eq, process_response_eq,
        record_http_metrics_eq, OpenTelemetryMiddleware.record_geocoding_metrics,
        record_geocoding_operation_eq, OpenTelemetryMiddleware.complete_span, record_error_eq,
        OpenTelemetryMiddleware.span_attr_events, increment_active_requests,
        telemetry_record_geocoding_request, telemetry_record_error, hsc,
        isSpanStartEv, isSpanEndEv, List.countP_append, List.countP_cons] <;>
      (repeat' split) <;>
      (try simp [isSpanStartEv, isSpanEndEv, List.countP_append, List.countP_cons])

theorem runRequest_gauge_balance (ri : RequestInstance) :
    List.countP isGaugeIncEv (runRequest ri) = List.countP isGaugeDecEv (runRequest ri) := by
  obtain ⟨⟨tr, tp, ma, lf, tid, wpid⟩, req, resp, resource, succ, t0, t1, parse⟩ := ri
  cases tr <;> cases ma <;> cases lf <;> cases tp <;>
    rcases resource with _ | rn <;>
      simp [runRequest, process_request_eq, process_resource_eq, process_response_eq,
        record_http_metrics_eq, OpenTelemetryMiddleware.record_geocoding_metrics,
        record_geocoding_operation_eq, OpenTelemetryMiddleware.complete_span, record_error_eq,
        OpenTelemetryMiddleware.span_attr_events, increment_active_requests,
        telemetry_record_geocoding_request, telemetry_record_error,
        isGaugeIncEv, isGaugeDecEv, List.countP_append, List.countP_cons] <;>
      (repeat' split) <;>
      (try simp [isGaugeIncEv, isGaugeDecEv, List.countP_append, List.countP_cons])

theorem runRequest_ctx_restore (st : List Nat) (ri : RequestInstance)
    (h : statusParses ri.resp = true) :
    applyCtxEvents st (runRequest ri) = st := by
  obtain ⟨⟨tr, tp, ma, lf, tid, wpid⟩, req, resp, resource, succ, t0, t1, parse⟩ := ri
  obtain ⟨code, hsc⟩ : ∃ c, statusCodeE resp = Except.ok c := by
    unfold statusParses at h
    rcases hq : statusCodeE resp with e | c
    · rw [hq] at h
      simp at h
    · exact ⟨c, rfl⟩
  cases tr <;> cases ma <;> cases lf <;> cases tp <;>
    rcases resource with _ | rn <;>
      simp [runRequest, process_request_eq, process_resource_eq, process_response_eq,
        record_http_metrics_eq, OpenTelemetryMiddleware.record_geocoding_metrics,
        record_geocoding_operation_eq, OpenTelemetryMiddleware.complete_span, record_error_eq,
        OpenTelemetryMiddleware.span_attr_events, increment_active_requests,
        telemetry_record_geocoding_request, telemetry_record_error, hsc,
        applyCtxEvents, applyCtxEvent] <;>
      (repeat' split) <;>
      (try simp [applyCtxEvents, applyCtxEvent])

theorem processTrace_cons (ri : RequestInstance) (ris : List RequestInstance) :
    processTrace (ri :: ris) = runRequest ri ++ processTrace ris := rfl

/-! ## Claim theorems -/

/-- C1 counterexample: one traced `GET /health/metrics` whose response
status is the string `"HTTP_200"` (assigned by the program itself at
wsgi_otel.py line 100): `process_request` starts a span, but
`_complete_span`'s status parse raises, the function-wide `except` swallows
it and `span.end()` never runs — one span started, zero ended, so
`started == ended` fails over this process lifetime. -/
theorem c1_counterexample_span_leak :
    malformedStatusInstance.resp.status = some "HTTP_200" ∧
    List.countP isSpanStartEv (processTrace [malformedStatusInstance]) = 1 ∧
    List.countP isSpanEndEv (processTrace [malformedStatusInstance]) = 0 ∧
    (1 : Nat) ≠ 0 := by
  refine ⟨rfl, by decide, by decide, by decide⟩

/-- C1 (amended): for every request that enters `process_request`, the
framework contract (encoded by `runRequest`) invokes `process_response`
exactly once; over any process lifetime the active-request gauge receives
as many increments as decrements unconditionally, and as many spans are
started as are ended provided every response's truthy status string begins
with an integer-parsable 3-character slice (true of every `falcon.HTTP_*`
status line) — including when the handler raises. -/
theorem c1_amended_request_lifecycle_balance (ris : List RequestInstance)
    (h : ∀ ri ∈ ris, statusParses ri.resp = true) :
    List.countP isSpanStartEv (processTrace ris) = List.countP isSpanEndEv (processTrace ris) ∧
    List.countP isGaugeIncEv (processTrace ris) = List.countP isGaugeDecEv (processTrace ris) := by
  induction ris with
  | nil => exact ⟨rfl, rfl⟩
  | cons ri rest ih =>
    have hri : statusParses ri.resp = true := h ri (List.mem_cons_self ri rest)
    have hrest := ih (fun r hr => h r (List.mem_cons_of_mem ri hr))
    rw [processTrace_cons]
    simp only [List.countP_append]
    exact ⟨by rw [runRequest_span_balance ri hri, hrest.1],
      by rw [runRequest_gauge_balance ri, hrest.2]⟩

/-- C1 witness: a one-request lifetime with a well-formed `"200 OK"` status
satisfies the hypothesis and the balance. -/
theorem c1_witness :
    statusParses searchInstance.resp = true ∧
    List.countP isSpanStartEv (processTrace [searchInstance]) =
      List.countP isSpanEndEv (processTrace [searchInstance]) := by
  refine ⟨by decide, (c1_amended_request_lifecycle_balance [searchInstance] ?_).1⟩
  intro ri hm
  rw [List.mem_singleton] at hm
  subst hm
  decide

/-- C2 counterexample: on the same traced `GET /health/metrics` with status
string `"HTTP_200"`, the context attached at process_request is never
detached (`_complete_span` aborts before `detach(token)` at line 265), so
the ambient-context state after the request differs from the initial
state. -/
theorem c2_counterexample_context_leak :
    malformedStatusInstance.resp.status = some "HTTP_200" ∧
    applyCtxEvents [] (processTrace [malformedStatusInstance]) = [7] ∧
    ([7] : List Nat) ≠ [] := by
  refine ⟨rfl, by decide, by decide⟩

/-- C2 (amended): the trace context attached in `process_request` is
detached on every exit path provided the response's truthy status string
begins with an integer-parsable 3-character slice (true of every
`falcon.HTTP_*` status line), so after any finite sequence of such
sequential requests on one worker thread the ambient trace-context state
equals the state observed before the first request. -/
theorem c2_amended_ambient_context_restored (ris : List RequestInstance) (st : List Nat)
    (h : ∀ ri ∈ ris, statusParses ri.resp = true) :
    applyCtxEvents st (processTrace ris) = st := by
  induction ris generalizing st with
  | nil => rfl
  | cons ri rest ih =>
    have hri : statusParses ri.resp = true := h ri (List.mem_cons_self ri rest)
    rw [processTrace_cons, applyCtxEvents_append, runRequest_ctx_restore st ri hri]
    exact ih st (fun r hr => h r (List.mem_cons_of_mem ri hr))

/-- C2 witness: a one-request lifetime with a well-formed `"200 OK"` status
restores the (empty) initial ambient-context state. -/
theorem c2_witness :
    statusParses searchInstance.resp = true ∧
    applyCtxEvents [] (processTrace [searchInstance]) = [] := by
  refine ⟨by decide, c2_amended_ambient_context_restored [searchInstance] [] ?_⟩
  intro ri hm
  rw [List.mem_singleton] at hm
  subst hm
  decide

/-- C3: no operation of the instrumentation subsystem ever lets an
exception escape to its caller — every lifecycle hook of both middlewares
and every metrics-recording function evaluates to `Except.ok` for all
inputs, including under the modelled label-set failure — the response
threaded through the response hooks is returned unaltered, and a recording
call with a malformed (missing/empty) label set is caught and degrades to a
no-op (an empty recording). -/
theorem c3_instrumentation_total_and_side_channel :
    ∀ (cfg : MwConfig) (parse : String → Option Json) (req : Req) (ctx : ReqCtx) (resp : Resp)
      (resource : Option String) (rn : String) (succ ma lf : Bool) (now t d : Nat) (c : Int)
      (m e o s et sev : String),
      (∃ r, OpenTelemetryMiddleware.process_request cfg req now = Except.ok r) ∧
      (∃ evs, OpenTelemetryMiddleware.process_resource ctx rn = Except.ok evs) ∧
      (∃ evs, OpenTelemetryMiddleware.process_response cfg parse req ctx resp resource succ now =
        Except.ok (resp, evs)) ∧
      (∃ r, MetricsMiddleware.process_request ma now = Except.ok r) ∧
      (∃ evs, MetricsMiddleware.process_response ma lf req resp t now = Except.ok (resp, evs)) ∧
      (∃ evs, record_http_request lf m e c d = Except.ok evs) ∧
      (∃ evs, record_geocoding_operation lf o s d = Except.ok evs) ∧
      (∃ evs, record_error lf et sev = Except.ok evs) ∧
      record_http_request true m e c d = Except.ok [] ∧
      record_geocoding_operation true o s d = Except.ok [] ∧
      record_error true et sev = Except.ok [] := by
  intro cfg parse req ctx resp resource rn succ ma lf now t d c m e o s et sev
  have hmm : ∃ evs, MetricsMiddleware.process_response ma lf req resp t now =
      Except.ok (resp, evs) := ⟨_, rfl⟩
  exact ⟨⟨_, process_request_eq cfg req now⟩,
    ⟨_, process_resource_eq ctx rn⟩,
    ⟨_, process_response_eq cfg parse req ctx resp resource succ now⟩,
    ⟨_, rfl⟩, hmm,
    ⟨_, record_http_request_eq lf m e c d⟩,
    ⟨_, record_geocoding_operation_eq lf o s d⟩,
    ⟨_, record_error_eq lf et sev⟩,
    record_http_request_eq true m e c d,
    record_geocoding_operation_eq true o s d,
    record_error_eq true et sev⟩

/-- C4: every `GET /metrics` scrape answers `falcon.HTTP_200` with a
non-empty text body, for every combination of internal failures; when the
render step raises, the body degrades to the explanatory error comment, and
the scrape path never produces a 5xx status. -/
theorem c4_metrics_scrape_always_200 (sysFail appFail renderFail : Bool) (rendered : String)
    (hr : rendered ≠ "") :
    (metrics_on_get sysFail appFail renderFail rendered).status = HTTP_200 ∧
    (∃ b, (metrics_on_get sysFail appFail renderFail rendered).text = some b ∧ b ≠ "") ∧
    (renderFail = true →
      (metrics_on_get sysFail appFail renderFail rendered).text =
        some "# Error generating metrics\n") := by
  have h := prometheus_metrics_eq sysFail appFail renderFail rendered
  cases renderFail <;> simp [metrics_on_get, h]
  exact hr

/-- C4 witness: with the render step failing on a concrete non-empty
rendering, the scrape still answers 200 and serves the error comment. -/
theorem c4_witness :
    (metrics_on_get false false true sampleExposition).status = HTTP_200 ∧
    (metrics_on_get false false true sampleExposition).text =
      some "# Error generating metrics\n" :=
  ⟨(c4_metrics_scrape_always_200 false false true sampleExposition (by decide)).1,
   (c4_metrics_scrape_always_200 false false true sampleExposition (by decide)).2.2 rfl⟩

/-- C5 counterexample: for a span-carrying request whose response status is
the non-numeric string `"HTTP_200"` (which the program assigns at
wsgi_otel.py line 100), `_complete_span`'s parse at line 245 raises before
any effect and the `except` at line 276 swallows it: no status attribute is
set, the span is never ended, the context never detached and no flush
issued — the claimed ACTIVE→ENDED contract fails. -/
theorem c5_counterexample_malformed_status :
    searchCtx.otelSpan = some "geocode_search" ∧
    searchCtx.otelToken = some 7 ∧
    malformedStatusResp.status = some "HTTP_200" ∧
    OpenTelemetryMiddleware.complete_span defaultCfg healthMetricsReq malformedStatusResp
      searchCtx true = [] ∧
    Event.spanEnd ∉
      OpenTelemetryMiddleware.complete_span defaultCfg healthMetricsReq malformedStatusResp
        searchCtx true ∧
    Event.ctxDetach 7 ∉
      OpenTelemetryMiddleware.complete_span defaultCfg healthMetricsReq malformedStatusResp
        searchCtx true ∧
    Event.flush ∉
      OpenTelemetryMiddleware.complete_span defaultCfg healthMetricsReq malformedStatusResp
        searchCtx true := by
  refine ⟨rfl, rfl, rfl, by decide, by decide, by decide, by decide⟩

/-- C5 (amended): at post-dispatch, for every request carrying a span (and
its detach token) whose response status parses — `int(resp.status[:3])`
evaluates to `code` without raising — `_complete_span` sets the numeric
HTTP status attribute first; when the handler reported success and `code`
lies in [200,400) the span status is set to OK, otherwise to ERROR together
with the `HTTP_<code>` error-counter increment and the telemetry error
record keyed by the derived operation name; and in both cases the span is
then ended, the ambient context detached with the remembered token, and an
export flush issued. -/
theorem c5_amended_complete_span_contract (cfg : MwConfig) (req : Req) (resp : Resp)
    (ctx : ReqCtx) (succ : Bool) (sp : String) (tok : Nat) (code : Int)
    (hspan : ctx.otelSpan = some sp) (htok : ctx.otelToken = some tok)
    (hprov : cfg.tracerProviderAvailable = true)
    (hlab : cfg.labelsFail = false) (hmet : cfg.metricsAvailable = true)
    (hcode : statusCodeE resp = Except.ok code) :
    ((succ = true ∧ 200 ≤ code ∧ code < 400) →
      OpenTelemetryMiddleware.complete_span cfg req resp ctx succ =
        [Event.spanSetAttr "http.status_code" (AttrVal.i code),
         Event.spanSetStatusOk, Event.spanEnd, Event.ctxDetach tok, Event.flush]) ∧
    (¬(succ = true ∧ 200 ≤ code ∧ code < 400) →
      OpenTelemetryMiddleware.complete_span cfg req resp ctx succ =
        [Event.spanSetAttr "http.status_code" (AttrVal.i code),
         Event.spanSetStatusError,
         Event.errorCounterInc ("HTTP_" ++ toString code) "error",
         Event.telErrorRecord ("HTTP_" ++ toString code) (get_operation_name req),
         Event.spanEnd, Event.ctxDetach tok, Event.flush]) := by
  constructor <;> intro h <;>
    simp [OpenTelemetryMiddleware.complete_span, hspan, htok, hprov, hlab, hmet, hcode,
      record_error_eq, telemetry_record_error, h]

/-- C5 witness: a successful search request with a `"200 OK"` response,
carrying span and token, produces exactly the OK completion sequence. -/
theorem c5_witness :
    OpenTelemetryMiddleware.complete_span defaultCfg searchReq threeFeaturesResp searchCtx true =
      [Event.spanSetAttr "http.status_code" (AttrVal.i 200), Event.spanSetStatusOk,
       Event.spanEnd, Event.ctxDetach 7, Event.flush] :=
  (c5_amended_complete_span_contract defaultCfg searchReq threeFeaturesResp searchCtx true
    "geocode_search" 7 200 rfl rfl rfl rfl rfl rfl).1 ⟨rfl, by decide, by decide⟩

/-- C6 counterexample: a succeeded search request whose 200-response body
spells the `features` key with the JSON escape `f` parses as
structured data to `{'features': []}` — zero entries — yet
`_estimate_results_count` never attempts the parse (the literal text
`'features'` does not occur in the body), falls back to the status-line
test and reports 1, so the operation is recorded as `success` where the
claim requires count 0 and hence `no_results`. -/
theorem c6_counterexample_escaped_features :
    escapedFeaturesParse escapedFeaturesBody =
      some (Json.obj [("features", Json.arr [])]) ∧
    escapedFeaturesResp.text = some escapedFeaturesBody ∧
    escapedFeaturesResp.status = some "200 OK" ∧
    ([] : List Json).length = 0 ∧
    estimate_results_count escapedFeaturesParse escapedFeaturesResp = 1 ∧
    Event.geoCounterInc "search" "success" ∈
      OpenTelemetryMiddleware.record_geocoding_metrics defaultCfg escapedFeaturesParse searchReq
        escapedFeaturesResp (some "Search") true 3 ∧
    (1 : Nat) ≠ 0 := by
  refine ⟨by simp [escapedFeaturesParse], rfl, rfl, rfl, by decide, by decide, by decide⟩

/-- C6 (amended): for every request served by a Search or Reverse handler,
the domain metric outcome is `success` exactly when the handler succeeded
and the estimated count is positive, `no_results` when it succeeded with
count 0, and `error` when it failed regardless of status code; an
(operation, status) counter and a duration histogram are recorded under the
operation name; and the count is the number of entries in the body's
`features` collection when the body *textually contains* `'features'` (true
for standard serializations) and parses as structured data with such a
collection, else — in particular on any parse failure — 1 if the status
line begins `"200"`, else 0. -/
theorem c6_amended_geocoding_classification (cfg : MwConfig) (parse : String → Option Json)
    (req : Req) (resp : Resp) (succ : Bool) (d : Nat) (isSearch : Bool)
    (hlab : cfg.labelsFail = false) (hmet : cfg.metricsAvailable = true) :
    (succ = true → 0 < estimate_results_count parse resp →
      Event.geoCounterInc (if isSearch then "search" else "reverse") "success" ∈
        OpenTelemetryMiddleware.record_geocoding_metrics cfg parse req resp
          (some (if isSearch then "Search" else "Reverse")) succ d) ∧
    (succ = true → estimate_results_count parse resp = 0 →
      Event.geoCounterInc (if isSearch then "search" else "reverse") "no_results" ∈
        OpenTelemetryMiddleware.record_geocoding_metrics cfg parse req resp
          (some (if isSearch then "Search" else "Reverse")) succ d) ∧
    (succ = false →
      Event.geoCounterInc (if isSearch then "search" else "reverse") "error" ∈
        OpenTelemetryMiddleware.record_geocoding_metrics cfg parse req resp
          (some (if isSearch then "Search" else "Reverse")) succ d) ∧
    (Event.geoDurationObserve (if isSearch then "search" else "reverse") d ∈
      OpenTelemetryMiddleware.record_geocoding_metrics cfg parse req resp
        (some (if isSearch then "Search" else "Reverse")) succ d) ∧
    (∀ t entries fs, resp.text = some t → t.isEmpty = false →
      pyContains t "features" = true → parse t = some (Json.obj entries) →
      jsonLookup entries "features" = some (Json.arr fs) →
      estimate_results_count parse resp = fs.length) ∧
    (∀ t, resp.text = some t → parse t = none →
      estimate_results_count parse resp =
        (match resp.status with
         | some st => if !st.isEmpty && pyStartsWith st "200" then 1 else 0
         | none => 0)) := by
  obtain ⟨tr, tp, ma, lf, tid, wpid⟩ := cfg
  simp only at hlab hmet
  subst hlab hmet
  refine ⟨?_, ?_, ?_, ?_, ?_, ?_⟩
  · intro hs hrc
    have hst : OpenTelemetryMiddleware.geoStatus succ (estimate_results_count parse resp) =
        "success" := by
      simp [OpenTelemetryMiddleware.geoStatus, hs, hrc]
    cases isSearch <;>
      simp [OpenTelemetryMiddleware.record_geocoding_metrics, record_geocoding_operation_eq,
        telemetry_record_geocoding_request, hst]
  · intro hs hrc
    have hst : OpenTelemetryMiddleware.geoStatus succ (estimate_results_count parse resp) =
        "no_results" := by
      simp [OpenTelemetryMiddleware.geoStatus, hs, hrc]
    cases isSearch <;>
      simp [OpenTelemetryMiddleware.record_geocoding_metrics, record_geocoding_operation_eq,
        telemetry_record_geocoding_request, hst]
  · intro hs
    have hst : OpenTelemetryMiddleware.geoStatus succ (estimate_results_count parse resp) =
        "error" := by
      simp [OpenTelemetryMiddleware.geoStatus, hs]
    cases isSearch <;>
      simp [OpenTelemetryMiddleware.record_geocoding_metrics, record_geocoding_operation_eq,
        telemetry_record_geocoding_request, hst]
  · cases isSearch <;>
      simp [OpenTelemetryMiddleware.record_geocoding_metrics, record_geocoding_operation_eq,
        telemetry_record_geocoding_request]
  · intro t entries fs ht hempty hcont hparse hlook
    simp [estimate_results_count, ht, hempty, hcont, hparse, hlook, pyLen]
  · intro t ht hparse
    simp only [estimate_results_count, ht]
    split <;> simp [hparse]

/-- C6 witness: a succeeded search with a standard three-feature 200 body
is classified `success` with estimated count 3. -/
theorem c6_witness :
    estimate_results_count threeFeaturesParse threeFeaturesResp = 3 ∧
    Event.geoCounterInc "search" "success" ∈
      OpenTelemetryMiddleware.record_geocoding_metrics defaultCfg threeFeaturesParse searchReq
        threeFeaturesResp (some "Search") true 3 := by
  constructor
  · exact (c6_amended_geocoding_classification defaultCfg threeFeaturesParse searchReq
      threeFeaturesResp true 3 true rfl rfl).2.2.2.2.1 threeFeaturesBody
      [("type", Json.str "FeatureCollection"),
       ("features", Json.arr [Json.num 1, Json.num 2, Json.num 3])]
      [Json.num 1, Json.num 2, Json.num 3]
      rfl (by decide) (by decide) (by simp [threeFeaturesParse]) (by simp [jsonLookup])
  · exact (c6_amended_geocoding_classification defaultCfg threeFeaturesParse searchReq
      threeFeaturesResp true 3 true rfl rfl).1 rfl (by decide)

/-- Two patterns agreeing on their first character but differing on their
second cannot both be list-prefixes of the same list. -/
theorem listStartsWith_distinct_second (l : List Char) (c b b' : Char) (t t' : List Char)
    (hbb : b ≠ b') (h : listStartsWith l (c :: b :: t) = true) :
    listStartsWith l (c :: b' :: t') = false := by
  rcases l with _ | ⟨a, _ | ⟨a2, rest⟩⟩
  · simp [listStartsWith] at h
  · simp [listStartsWith] at h
  · simp only [listStartsWith, Bool.and_eq_true, beq_iff_eq] at h
    obtain ⟨h1, h2, _⟩ := h
    subst h1
    subst h2
    simp [listStartsWith, hbb]

/-- C7: operation-name derivation is a pure total function given by the
fixed prefix table — `/search` ↦ `geocode_search`, `/reverse` ↦
`geocode_reverse`, `/health` ↦ `health_check`, `/metrics` ↦ `metrics`,
anything else ↦ `"<METHOD> <path>"` — and the same derived name is used as
the span name (in `process_request`), as the HTTP-metrics endpoint label
(in `_record_http_metrics`) and as the error-metric endpoint label (in
`_complete_span`), so the three always agree. -/
theorem c7_operation_name_derivation (cfg : MwConfig) (req : Req) (resp : Resp) (ctx : ReqCtx)
    (succ : Bool) (now d : Nat) :
    (pyStartsWith req.path "/search" = true → get_operation_name req = "geocode_search") ∧
    (pyStartsWith req.path "/reverse" = true → get_operation_name req = "geocode_reverse") ∧
    (pyStartsWith req.path "/health" = true → get_operation_name req = "health_check") ∧
    (pyStartsWith req.path "/metrics" = true → get_operation_name req = "metrics") ∧
    (pyStartsWith req.path "/search" = false → pyStartsWith req.path "/reverse" = false →
      pyStartsWith req.path "/health" = false → pyStartsWith req.path "/metrics" = false →
      get_operation_name req = req.method ++ " " ++ req.path) ∧
    (∀ c evs n, OpenTelemetryMiddleware.process_request cfg req now = Except.ok (c, evs) →
      Event.spanStart n ∈ evs → n = get_operation_name req) ∧
    (∀ m e sc, Event.httpCounterInc m e sc ∈
      OpenTelemetryMiddleware.record_http_metrics cfg req resp d →
      e = get_operation_name req) ∧
    (∀ et e, Event.telErrorRecord et e ∈
      OpenTelemetryMiddleware.complete_span cfg req resp ctx succ →
      e = get_operation_name req) := by
  obtain ⟨tr, tp, ma, lf, tid, wpid⟩ := cfg
  refine ⟨?_, ?_, ?_, ?_, ?_, ?_, ?_, ?_⟩
  · intro h
    simp [get_operation_name, h]
  · intro h
    have h1 : pyStartsWith req.path "/search" = false :=
      listStartsWith_distinct_second req.path.toList '/' 'r' 's' _ _ (by decide) h
    simp [get_operation_name, h, h1]
  · intro h
    have h1 : pyStartsWith req.path "/search" = false :=
      listStartsWith_distinct_second req.path.toList '/' 'h' 's' _ _ (by decide) h
    have h2 : pyStartsWith req.path "/reverse" = false :=
      listStartsWith_distinct_second req.path.toList '/' 'h' 'r' _ _ (by decide) h
    simp [get_operation_name, h, h1, h2]
  · intro h
    have h1 : pyStartsWith req.path "/search" = false :=
      listStartsWith_distinct_second req.path.toList '/' 'm' 's' _ _ (by decide) h
    have h2 : pyStartsWith req.path "/reverse" = false :=
      listStartsWith_distinct_second req.path.toList '/' 'm' 'r' _ _ (by decide) h
    have h3 : pyStartsWith req.path "/health" = false :=
      listStartsWith_distinct_second req.path.toList '/' 'm' 'h' _ _ (by decide) h
    simp [get_operation_name, h, h1, h2, h3]
  · intro h1 h2 h3 h4
    simp [get_operation_name, h1, h2, h3, h4]
  · intro c evs n hok hmem
    rw [process_request_eq] at hok
    cases tr <;> cases ma <;>
      simp only [Except.ok.injEq, Bool.false_eq_true, if_false, if_true, Prod.mk.injEq,
        increment_active_requests, OpenTelemetryMiddleware.span_attr_events] at hok <;>
      rcases hok with ⟨-, rfl⟩ <;>
      simp at hmem <;>
      (try exact hmem.symm ▸ rfl)
  · intro m e sc hmem
    rw [record_http_metrics_eq] at hmem
    rcases hsc : statusCodeE resp with err | code <;> rw [hsc] at hmem
    · simp at hmem
    · cases lf <;> simp at hmem
      exact hmem.2.1
  · intro et e hmem
    obtain ⟨st, sp, tok⟩ := ctx
    rcases sp with _ | sp <;> rcases tok with _ | tok <;> cases lf <;> cases ma <;> cases tp <;>
      simp [OpenTelemetryMiddleware.complete_span, record_error_eq,
        telemetry_record_error] at hmem <;>
      (repeat' split at hmem) <;>
      (try simp at hmem) <;>
      (try tauto)

/-- C7 witness: the five rows of the table at concrete requests. -/
theorem c7_witness :
    get_operation_name searchReq = "geocode_search" ∧
    get_operation_name reverseReq = "geocode_reverse" ∧
    get_operation_name healthReq = "health_check" ∧
    get_operation_name metricsReq = "metrics" ∧
    get_operation_name unknownReq = "GET /unknown" := by
  refine ⟨?_, ?_, ?_, ?_, ?_⟩
  · exact (c7_operation_name_derivation defaultCfg searchReq threeFeaturesResp searchCtx
      true 0 0).1 (by decide)
  · exact (c7_operation_name_derivation defaultCfg reverseReq threeFeaturesResp searchCtx
      true 0 0).2.1 (by decide)
  · exact (c7_operation_name_derivation defaultCfg healthReq threeFeaturesResp searchCtx
      true 0 0).2.2.1 (by decide)
  · exact (c7_operation_name_derivation defaultCfg metricsReq threeFeaturesResp searchCtx
      true 0 0).2.2.2.1 (by decide)
  · exact (c7_operation_name_derivation defaultCfg unknownReq threeFeaturesResp searchCtx
      true 0 0).2.2.2.2.1 (by decide) (by decide) (by decide) (by decide)

/-- C8 (code bug): `HealthMetricsResource.on_get` in wsgi_otel.py sets
`resp.status = f"HTTP_{health_response[1]}"`, so a successful
`GET /health/metrics` carries the malformed status string `"HTTP_200"`
instead of the valid status line `falcon.HTTP_200 = "200 OK"` (and the
internal-failure path carries `"HTTP_500"` instead of `falcon.HTTP_500`),
while the JSON payloads themselves match the claim. -/
theorem c8_health_status_line_bug :
    (health_on_get false sampleVitals "t-ok" "t-err").status = "HTTP_200" ∧
    "HTTP_200" ≠ HTTP_200 ∧
    (health_on_get false sampleVitals "t-ok" "t-err").media =
      some (Json.obj
        [("status", Json.str "healthy"),
         ("timestamp", Json.str "t-ok"),
         ("uptime_seconds", Json.num 3600),
         ("memory_usage_mb", Json.num 256),
         ("cpu_percent", Json.num 3),
         ("open_files", Json.num 12),
         ("metrics_endpoint", Json.str "/metrics")]) ∧
    (health_on_get true sampleVitals "t-ok" "t-err").status = "HTTP_500" ∧
    "HTTP_500" ≠ HTTP_500 ∧
    (health_on_get true sampleVitals "t-ok" "t-err").media =
      some (Json.obj
        [("status", Json.str "unhealthy"),
         ("timestamp", Json.str "t-err"),
         ("error", Json.str "psutil.Process failure")]) :=
  ⟨rfl, by decide, rfl, rfl, by decide, rfl⟩

/-- C9 counterexample: an `X-Forwarded-For` header that is present but
empty is skipped by the Python truthiness test, so the resolved client IP
is taken from `X-Real-IP` instead of being the (empty) first comma entry of
the forwarded header, contradicting the claimed precedence. -/
theorem c9_counterexample_empty_forwarded_header :
    emptyXffReq.xForwardedFor = some "" ∧
    pyStrip (beforeChar "" ',') = "" ∧
    get_client_ip emptyXffReq = "9.9.9.9" ∧
    ("9.9.9.9" : String) ≠ "" := by
  refine ⟨rfl, rfl, by decide, by decide⟩

/-- C9 (amended): client-IP resolution precedence with Python truthiness —
a present *and non-empty* `X-Forwarded-For` resolves to its first
comma-separated entry, stripped; otherwise a present and non-empty
`X-Real-IP` resolves to its value; otherwise a non-empty transport peer
address resolves to itself, and a missing or empty peer address resolves to
`"unknown"`. -/
theorem c9_amended_client_ip_precedence (req : Req) :
    (pyTruthy req.xForwardedFor = true →
      get_client_ip req = pyStrip (beforeChar (req.xForwardedFor.getD "") ',')) ∧
    (pyTruthy req.xForwardedFor = false → pyTruthy req.xRealIp = true →
      get_client_ip req = req.xRealIp.getD "") ∧
    (pyTruthy req.xForwardedFor = false → pyTruthy req.xRealIp = false →
      ∀ a, req.remoteAddr = some a → a.isEmpty = false → get_client_ip req = a) ∧
    (pyTruthy req.xForwardedFor = false → pyTruthy req.xRealIp = false →
      ∀ a, req.remoteAddr = some a → a.isEmpty = true → get_client_ip req = "unknown") ∧
    (pyTruthy req.xForwardedFor = false → pyTruthy req.xRealIp = false →
      req.remoteAddr = none → get_client_ip req = "unknown") := by
  refine ⟨?_, ?_, ?_, ?_, ?_⟩
  · intro h
    simp [get_client_ip, h]
  · intro h1 h2
    simp [get_client_ip, h1, h2]
  · intro h1 h2 a ha he
    simp [get_client_ip, h1, h2, ha, he]
  · intro h1 h2 a ha he
    simp [get_client_ip, h1, h2, ha, he]
  · intro h1 h2 ha
    simp [get_client_ip, h1, h2, ha]

/-- C9 witness: the two-entry forwarded header resolves to its first entry
trimmed; with the forwarded header empty, the real-IP header wins. -/
theorem c9_witness :
    get_client_ip xffReq = "1.2.3.4" ∧ get_client_ip emptyXffReq = "9.9.9.9" := by
  constructor
  · exact ((c9_amended_client_ip_precedence xffReq).1 (by decide)).trans (by decide)
  · exact (c9_amended_client_ip_precedence emptyXffReq).2.1 rfl rfl

/-- C10: with a tracer available, the span attribute `addok.limit` set by
`process_request` equals the parsed integer `limit` parameter only when it
parses to a non-zero integer and equals the default 5 when the parameter is
absent, unparsable, or parses to exactly 0; `addok.autocomplete` equals the
parsed boolean and defaults to `True` when absent or unparsable. -/
theorem c10_limit_autocomplete_defaults (cfg : MwConfig) (req : Req) (now : Nat) (ctx : ReqCtx)
    (evs : List Event) (htr : cfg.tracerAvailable = true)
    (hok : OpenTelemetryMiddleware.process_request cfg req now = Except.ok (ctx, evs)) :
    (∀ n : Int, req.limitParam = some (some n) → n ≠ 0 →
      Event.spanSetAttr "addok.limit" (AttrVal.i n) ∈ evs) ∧
    (req.limitParam = none → Event.spanSetAttr "addok.limit" (AttrVal.i 5) ∈ evs) ∧
    (req.limitParam = some none → Event.spanSetAttr "addok.limit" (AttrVal.i 5) ∈ evs) ∧
    (req.limitParam = some (some 0) → Event.spanSetAttr "addok.limit" (AttrVal.i 5) ∈ evs) ∧
    (∀ b : Bool, req.autocompleteParam = some (some b) →
      Event.spanSetAttr "addok.autocomplete" (AttrVal.b b) ∈ evs) ∧
    (req.autocompleteParam = none →
      Event.spanSetAttr "addok.autocomplete" (AttrVal.b true) ∈ evs) ∧
    (req.autocompleteParam = some none →
      Event.spanSetAttr "addok.autocomplete" (AttrVal.b true) ∈ evs) := by
  obtain ⟨tr, tp, ma, lf, tid, wpid⟩ := cfg
  simp only at htr
  subst htr
  rw [process_request_eq] at hok
  simp only [if_true, Except.ok.injEq, Prod.mk.injEq] at hok
  obtain ⟨-, rfl⟩ := hok
  refine ⟨?_, ?_, ?_, ?_, ?_, ?_, ?_⟩
  · intro n hp hn
    have hv : limitAttr req.limitParam = n := by simp [hp, limitAttr, hn]
    cases ma <;>
      simp [OpenTelemetryMiddleware.span_attr_events, increment_active_requests, hv]
  · intro hp
    have hv : limitAttr req.limitParam = 5 := by simp [hp, limitAttr]
    cases ma <;>
      simp [OpenTelemetryMiddleware.span_attr_events, increment_active_requests, hv]
  · intro hp
    have hv : limitAttr req.limitParam = 5 := by simp [hp, limitAttr]
    cases ma <;>
      simp [OpenTelemetryMiddleware.span_attr_events, increment_active_requests, hv]
  · intro hp
    have hv : limitAttr req.limitParam = 5 := by simp [hp, limitAttr]
    cases ma <;>
      simp [OpenTelemetryMiddleware.span_attr_events, increment_active_requests, hv]
  · intro b hp
    have hv : autocompleteAttr req.autocompleteParam = b := by simp [hp, autocompleteAttr]
    cases ma <;>
      simp [OpenTelemetryMiddleware.span_attr_events, increment_active_requests, hv]
  · intro hp
    have hv : autocompleteAttr req.autocompleteParam = true := by simp [hp, autocompleteAttr]
    cases ma <;>
      simp [OpenTelemetryMiddleware.span_attr_events, increment_active_requests, hv]
  · intro hp
    have hv : autocompleteAttr req.autocompleteParam = true := by simp [hp, autocompleteAttr]
    cases ma <;>
      simp [OpenTelemetryMiddleware.span_attr_events, increment_active_requests, hv]

/-- C10 witness: a limit parameter parsing to 0 and an unparsable
autocomplete parameter both fall back to their defaults (5 and True). -/
theorem c10_witness :
    Event.spanSetAttr "addok.limit" (AttrVal.i 5) ∈
      ((OpenTelemetryMiddleware.process_request defaultCfg limitZeroReq 0).toOption.getD
        ({ startTime := 0, otelSpan := none, otelToken := none }, [])).2 ∧
    Event.spanSetAttr "addok.autocomplete" (AttrVal.b true) ∈
      ((OpenTelemetryMiddleware.process_request defaultCfg limitZeroReq 0).toOption.getD
        ({ startTime := 0, otelSpan := none, otelToken := none }, [])).2 :=
  ⟨(c10_limit_autocomplete_defaults defaultCfg limitZeroReq 0 _ _ rfl rfl).2.2.2.1 rfl,
   (c10_limit_autocomplete_defaults defaultCfg limitZeroReq 0 _ _ rfl rfl).2.2.2.2.2.2 rfl⟩

end AddokMonitoring

